import Mathlib

/-!
Shallow embedding of the colmena-health check runner and alert dispatcher.

Sources embedded here:
* `src/retry.rs` — the `Retrier` backoff state machine;
* `src/alertmanager.rs` — the alert dispatcher (`process_update`, `send_alerts`,
  the `run` select loop);
* `src/report.rs` — report-mode failure counting and exit result;
* `src/alert.rs` — the alert-mode outer/inner check loop (`run_check_for_alerts`);
* `src/config.rs` — `CheckDefinition`.

The crate root that defines the current `run_check`, `CheckStatus`, `CheckUpdate`,
`CheckInfo` and the alerting `Config` is not present under `src/` (the `main.rs`
that is present is an older, incompatible revision of the crate); those parts are
modelled from the spec, as marked on each definition.

Durations are modelled as exact rationals (seconds).  The source stores
`std::time::Duration` (nanosecond granularity) and multiplies via `f64`
(`Duration::mul_f64`); at the concrete values the claims mention
(1s, ×1.1 → 1.1s, 1.21s) the f64 computation rounds to exactly these values at
nanosecond granularity, so the exact-rational model agrees with the source there.
Timestamps (`OffsetDateTime::now_utc()`) are modelled as an explicit `Nat`
parameter.  Attempt counters are `u16` in the source; they are modelled as `Nat`,
which is faithful because `attempts` only ever increments while strictly below
`max_retries ≤ 65535`, so no wrap-around is reachable.
-/

namespace ColmenaHealth

/-- Durations in seconds, as exact rationals. -/
abbrev Dur := ℚ

/-- retry.rs lines 35-40: `Policy { max_retries: u16, initial: Duration, multiplier: f64 }`. -/
structure Policy where
  maxRetries : Nat
  initial : Dur
  multiplier : Dur
deriving DecidableEq, Repr

/-- retry.rs lines 71-75: `Retrier { policy, last: Option<Duration>, attempts: u16 }`. -/
structure Retrier where
  policy : Policy
  last : Option Dur
  attempts : Nat
deriving DecidableEq, Repr

/-- retry.rs lines 78-84: `Retrier::new`. -/
def Retrier.new (p : Policy) : Retrier :=
  { policy := p, last := none, attempts := 0 }

/-- retry.rs lines 86-102: `Retrier::retry`.  The returned triple is
(the `Option<u16>` result, the duration slept — `none` when the call returns
without sleeping, the retrier state after the call). -/
def Retrier.retry (r : Retrier) : Option Nat × Option Dur × Retrier :=
  if r.policy.maxRetries ≤ r.attempts then
    (none, none, r)
  else
    let dur := match r.last with
      | none => r.policy.initial
      | some lastDur => lastDur * r.policy.multiplier
    (some (r.attempts + 1), some dur, { policy := r.policy, last := some dur, attempts := r.attempts + 1 })

/-- The wait `Retrier.retry` sleeps when it does retry: `initial` on the first
retry, `last * multiplier` afterwards (retry.rs lines 91-94). -/
def waitOf (r : Retrier) : Dur :=
  match r.last with
  | none => r.policy.initial
  | some lastDur => lastDur * r.policy.multiplier

/-- The retrier state after a non-exhausted `retry()` call (retry.rs lines 96-101). -/
def Retrier.stepState (r : Retrier) : Retrier :=
  { policy := r.policy, last := some (waitOf r), attempts := r.attempts + 1 }

/-- Modelled from the spec: the current crate root's `CheckStatus` enum is not under
`src/`.  Variants follow spec §3 and the uses in src: `alert.rs` line 33 emits
`Waiting(Duration, String)`, `alertmanager.rs` lines 60/91 match payload-free
`Failed`/`Succeeded`, and `http.rs` line 72 emits `Running`. -/
inductive CheckStatus where
  | running
  | retrying
  | waiting (d : Dur) (reason : String)
  | succeeded
  | failed
deriving DecidableEq, Repr

/-- Modelled from the spec: the current crate root's `CheckUpdate` struct is not
under `src/`.  Fields follow its uses in `alertmanager.rs` (`update.id : usize`,
`update.status`, `update.msg : Option<String>`) and `report.rs`. -/
structure CheckUpdate where
  id : Nat
  status : CheckStatus
  msg : Option String
deriving DecidableEq, Repr

/-- One observable action of a check task: an emitted update (status plus
optional message) or a suspension for a duration. -/
inductive Ev where
  | upd (status : CheckStatus) (msg : Option String)
  | sleep (d : Dur)
deriving DecidableEq, Repr

/-- Outcome of one probe attempt as the check loop sees it after the timeout
wrapper: success, or a failure with a description. -/
inductive ProbeOut where
  | ok
  | fail (msg : String)
deriving DecidableEq, Repr

/-- One probe attempt before the timeout wrapper: how long the attempt would
need to complete, and what it would then return. -/
structure ProbeWork where
  elapsed : Dur
  result : ProbeOut
deriving DecidableEq, Repr

/-- Modelled from the spec: `tokio::time::timeout(deadline, fut)` wrapped with
`wrap_err("Check timed out")`, as the (missing) current `run_check` applies it to
each probe invocation (spec §4.2, §5; same shape as the older `main.rs` lines
351-353).  If the work cannot finish within the deadline the attempt fails with
"Check timed out"; otherwise the probe's own result stands. -/
def tokioTimeout (deadline : Dur) (w : ProbeWork) : ProbeOut :=
  if deadline < w.elapsed then ProbeOut.fail "Check timed out" else w.result

/-- The failure message of a probe outcome, `none` on success. -/
def failMsg : ProbeOut → Option String
  | ProbeOut.ok => none
  | ProbeOut.fail m => some m

/-- main.rs lines 325-328 (and the current crate root): a check task's terminal
outcome. -/
inductive CheckResult where
  | success
  | failure
deriving DecidableEq, Repr

/-- main.rs lines 330-338: `CheckResult::is_failure`. -/
def CheckResult.isFailure : CheckResult → Bool
  | CheckResult.failure => true
  | CheckResult.success => false

/-- Modelled from the spec: the body of the current `run_check` loop (spec §4.2),
which is not under `src/` (report.rs line 31 and alert.rs line 27 call it).
The `fuel` argument is only a termination device: the loop consumes one retry
per iteration, so `maxRetries + 1 - attempts` fuel is always enough, and the
fuel-zero base case coincides with the loop body for `attempts > maxRetries`
(where `retry()` is exhausted).  Each iteration: emit `Running`; run the probe;
on success emit `Succeeded` and finish with `success`; on failure emit
`Retrying` with the failure description and call `Retrier.retry`; when that is
`none` emit `Failed("Maximum retries reached")` and finish with `failure`,
otherwise sleep the backoff wait and loop. -/
def runCheckFuel (probe : Nat → ProbeOut) : Nat → Retrier → List Ev × CheckResult
  | 0, r =>
    match failMsg (probe r.attempts) with
    | none => ([Ev.upd CheckStatus.running none, Ev.upd CheckStatus.succeeded none], CheckResult.success)
    | some m =>
      ([Ev.upd CheckStatus.running none, Ev.upd CheckStatus.retrying (some m),
        Ev.upd CheckStatus.failed (some "Maximum retries reached")], CheckResult.failure)
  | fuel + 1, r =>
    match failMsg (probe r.attempts) with
    | none => ([Ev.upd CheckStatus.running none, Ev.upd CheckStatus.succeeded none], CheckResult.success)
    | some m =>
      match r.retry with
      | (none, _, _) =>
        ([Ev.upd CheckStatus.running none, Ev.upd CheckStatus.retrying (some m),
          Ev.upd CheckStatus.failed (some "Maximum retries reached")], CheckResult.failure)
      | (some _, w, r2) =>
        let rest := runCheckFuel probe fuel r2
        (Ev.upd CheckStatus.running none :: Ev.upd CheckStatus.retrying (some m) ::
          ((match w with | none => [] | some d => [Ev.sleep d]) ++ rest.1), rest.2)

/-- Modelled from the spec: the current `run_check` loop from an arbitrary
retrier state. -/
def runCheckLoop (probe : Nat → ProbeOut) (r : Retrier) : List Ev × CheckResult :=
  runCheckFuel probe (r.policy.maxRetries + 1 - r.attempts) r

/-- The probe a check task actually runs at each attempt: the raw probe work
under the timeout deadline. -/
def probeOf (work : Nat → ProbeWork) (deadline : Dur) : Nat → ProbeOut :=
  fun k => tokioTimeout deadline (work k)

/-- Modelled from the spec: the current `run_check` (spec §4.2), not under
`src/`.  It builds a fresh `Retrier` from the policy and runs the loop, with
every probe attempt under the timeout deadline. -/
def runCheck (work : Nat → ProbeWork) (deadline : Dur) (p : Policy) : List Ev × CheckResult :=
  runCheckLoop (probeOf work deadline) (Retrier.new p)

/-- alert.rs lines 12-20: `alert::Policy { check_interval, recheck_interval }`. -/
structure AlertPolicy where
  checkInterval : Dur
  recheckInterval : Dur
deriving DecidableEq, Repr

/-- alert.rs lines 25-43: the events one `run_check` invocation contributes to
the alert-mode trace — the cycle's own events, then either
`Waiting(recheck_interval, "recheck")` and a sleep of `recheck_interval` when
the cycle ended in failure (inner loop, lines 28-36), or
`Waiting(check_interval, "next check")` and a sleep of `check_interval` when it
succeeded (outer loop, lines 38-42). -/
def alertCycleEvs (pol : AlertPolicy) (cyc : List Ev × CheckResult) : List Ev :=
  if cyc.2.isFailure then
    cyc.1 ++ [Ev.upd (CheckStatus.waiting pol.recheckInterval "recheck") none,
              Ev.sleep pol.recheckInterval]
  else
    cyc.1 ++ [Ev.upd (CheckStatus.waiting pol.checkInterval "next check") none,
              Ev.sleep pol.checkInterval]

/-- alert.rs lines 22-44: `run_check_for_alerts`, step-indexed.  The function
loops forever; `runCheckForAlerts ... n` is the trace produced by its first `n`
`run_check` invocations (each invocation is one iteration of the inner loop,
or the first iteration of the inner loop after an outer-loop restart).
`work i` is the probe behaviour during the `i`-th invocation. -/
def runCheckForAlerts (pol : AlertPolicy) (deadline : Dur) (p : Policy)
    (work : Nat → Nat → ProbeWork) (n : Nat) : List Ev :=
  (List.range n).flatMap fun i => alertCycleEvs pol (runCheck (work i) deadline p)

/-- Modelled from the spec: the current crate root's `CheckInfo` struct is not
under `src/`.  Fields follow its uses in `alertmanager.rs` lines 64-80
(`info.name`, `info.labels`, `info.annotations`). -/
structure CheckInfo where
  name : String
  labels : List (String × String)
  annotations : List (String × String)
deriving DecidableEq, Repr

/-- alertmanager.rs lines 13-28: `PostableAlert`. -/
structure PostableAlert where
  startsAt : Option Nat
  endsAt : Option Nat
  labels : List (String × String)
  annotations : List (String × String)
  generatorURL : Option String
deriving DecidableEq, Repr

/-- Modelled from the spec: `alert::Config` as used by `alertmanager.rs`
(`base_url` line 48, `allow_output_annotation` line 73, `realert_interval`
line 112); the struct itself is in the part of the crate not under `src/`.
The source field `allow_output_annotation` is named `allowOutputAnnot` here. -/
structure AlertConfig where
  baseUrl : String
  realertInterval : Dur
  allowOutputAnnot : Bool
deriving DecidableEq, Repr

/-- `HashMap::get` on a map modelled as an association list (first binding
wins). -/
def mget {α : Type} (m : List (Nat × α)) (k : Nat) : Option α :=
  match m with
  | [] => none
  | (k2, v) :: rest => if k2 = k then some v else mget rest k

/-- `HashMap::contains_key`. -/
def mcontains {α : Type} (m : List (Nat × α)) (k : Nat) : Bool :=
  (mget m k).isSome

/-- `HashMap::remove` (alertmanager.rs line 97): drop the binding of `k`. -/
def merase {α : Type} (m : List (Nat × α)) (k : Nat) : List (Nat × α) :=
  match m with
  | [] => []
  | (k2, v) :: rest => if k2 = k then merase rest k else (k2, v) :: merase rest k

/-- `HashMap::get_mut` followed by a field mutation (alertmanager.rs lines
92-93): rewrite the binding of `k` in place. -/
def mupdate {α : Type} (m : List (Nat × α)) (k : Nat) (f : α → α) : List (Nat × α) :=
  match m with
  | [] => []
  | (k2, v) :: rest =>
    (if k2 = k then (k2, f v) else (k2, v)) :: mupdate rest k f

/-- `HashMap::insert` on a string-keyed map (alertmanager.rs line 76): the new
binding replaces any previous one. -/
def sinsert (m : List (String × String)) (k v : String) : List (String × String) :=
  (k, v) :: m.filter fun p => p.1 != k

/-- A log line of the alert dispatcher, by content. -/
inductive LogEntry where
  | checkFailed (name : String)
  | checkPassing (labels : List (String × String))
  | unknownId (id : Nat)
  | sendFailure
deriving DecidableEq, Repr

/-- Result of one dispatcher action: the `active_alerts` map afterwards, the
snapshots POSTed to the alert sink (each recorded as the association list whose
values form the JSON array of `send_alerts`, alertmanager.rs line 105), and the
log lines written, in program order. -/
structure StepOut where
  state : List (Nat × PostableAlert)
  posts : List (List (Nat × PostableAlert))
  logs : List LogEntry
deriving DecidableEq, Repr

/-- The wire payload of a recorded POST: `active_alerts.values()`
(alertmanager.rs line 105). -/
def payload (snap : List (Nat × PostableAlert)) : List PostableAlert :=
  snap.map Prod.snd

/-- alertmanager.rs lines 104-109: `send_alerts`.  `tok` is the transport
outcome of this POST; a transport error is only logged (line 107) and has no
other effect. -/
def sendAlerts (tok : Bool) (st : List (Nat × PostableAlert)) :
    List (List (Nat × PostableAlert)) × List LogEntry :=
  ([st], if tok then [] else [LogEntry.sendFailure])

/-- alertmanager.rs lines 58-102: `process_update`.  `now` is the value
`OffsetDateTime::now_utc()` would return during this call. -/
def processUpdate (cfg : AlertConfig) (registry : List (Nat × CheckInfo)) (tok : Bool)
    (now : Nat) (st : List (Nat × PostableAlert)) (u : CheckUpdate) : StepOut :=
  match u.status with
  | CheckStatus.failed =>
    if mcontains st u.id then
      { state := st, posts := [], logs := [] }
    else
      match mget registry u.id with
      | some info =>
        let baseAlert : PostableAlert :=
          { startsAt := some now, endsAt := none, labels := info.labels,
            annotations := info.annotations, generatorURL := none }
        let alert :=
          if cfg.allowOutputAnnot then
            match u.msg with
            | some output => { baseAlert with annotations := sinsert baseAlert.annotations "output" output }
            | none => baseAlert
          else baseAlert
        let st2 := (u.id, alert) :: st
        let sent := sendAlerts tok st2
        { state := st2, posts := sent.1, logs := LogEntry.checkFailed info.name :: sent.2 }
      | none =>
        { state := st, posts := [], logs := [LogEntry.unknownId u.id] }
  | CheckStatus.succeeded =>
    match mget st u.id with
    | some alert =>
      let st2 := mupdate st u.id fun a => { a with endsAt := some now }
      let sent := sendAlerts tok st2
      { state := merase st2 u.id, posts := sent.1,
        logs := LogEntry.checkPassing alert.labels :: sent.2 }
    | none => { state := st, posts := [], logs := [] }
  | _ => { state := st, posts := [], logs := [] }

/-- One arm of the `tokio::select!` in `AlertManagerClient::run`
(alertmanager.rs lines 115-131): a re-announcement timer tick, a received
update (with the wall-clock time at which it is processed), or the channel
closing because every producer is gone. -/
inductive AMEvent where
  | tick
  | update (now : Nat) (u : CheckUpdate)
  | closed
deriving DecidableEq, Repr

/-- alertmanager.rs lines 111-133: one iteration of the `run` loop.  The
returned `Bool` is true when the loop returns (channel closed, after the final
flush POST). -/
def runStep (cfg : AlertConfig) (registry : List (Nat × CheckInfo)) (tok : Bool)
    (st : List (Nat × PostableAlert)) (e : AMEvent) : StepOut × Bool :=
  match e with
  | AMEvent.tick =>
    if st.isEmpty then
      ({ state := st, posts := [], logs := [] }, false)
    else
      let sent := sendAlerts tok st
      ({ state := st, posts := sent.1, logs := sent.2 }, false)
  | AMEvent.update now u => (processUpdate cfg registry tok now st u, false)
  | AMEvent.closed =>
    let sent := sendAlerts tok st
    ({ state := st, posts := sent.1, logs := sent.2 }, true)

/-- The `run` loop over a sequence of select outcomes: accumulates every POSTed
snapshot and the final state, stopping when the channel closes. -/
def runFold (cfg : AlertConfig) (registry : List (Nat × CheckInfo))
    (st : List (Nat × PostableAlert)) :
    List (Bool × AMEvent) → List (List (Nat × PostableAlert)) × List (Nat × PostableAlert)
  | [] => ([], st)
  | (tok, e) :: rest =>
    let step := runStep cfg registry tok st e
    if step.2 then
      (step.1.posts, step.1.state)
    else
      let next := runFold cfg registry step.1.state rest
      (step.1.posts ++ next.1, next.2)

/-- report.rs line 41: the number of checks whose terminal outcome was
`Failure`. -/
def failureCount (results : List CheckResult) : Nat :=
  (results.filter fun r => r.isFailure).length

/-- report.rs lines 41-49: the tail of `run_report` — count the `Failure`
outcomes of the concurrently run checks and return an error naming the count
when it is positive.  `main` propagates this `Result`, so the process exit
status is non-zero exactly when this is an `error`. -/
def runReport (results : List CheckResult) : Except String Unit :=
  let failures := failureCount results
  if 0 < failures then Except.error (toString failures ++ " check(s) failed")
  else Except.ok ()

/-- report.rs line 14 (and alert.rs line 50): the display name the consumer
resolves an update's id to. -/
def resolveName (registry : List (Nat × String)) (id : Nat) : String :=
  (mget registry id).getD "unknown check"

/-- config.rs lines 11-24: `CheckDefinition` (the probe-specific `CheckConfig`
block is external to the core and not modelled). -/
structure CheckDefinition where
  retryPolicy : Policy
  checkTimeout : Dur
  labels : List (String × String)
  annotations : List (String × String)
  alertPolicy : AlertPolicy
deriving DecidableEq, Repr

/-- Modelled from the spec: the wiring in the current crate root (not under
`src/`) that binds a `CheckDefinition` to a runnable check task (spec §2, §3:
the task runs its probe, its retry policy, and a deadline equal to the
definition's `check_timeout`). -/
structure RunnableCheck where
  timeout : Dur
  policy : Policy
  alertPolicy : AlertPolicy
deriving DecidableEq, Repr

/-- Modelled from the spec: materializing a check definition into its task
parameters. -/
def mkRunnable (d : CheckDefinition) : RunnableCheck :=
  { timeout := d.checkTimeout, policy := d.retryPolicy, alertPolicy := d.alertPolicy }

/-- Modelled from the spec: running one report-mode cycle of a materialized
check. -/
def runnableRunCheck (c : RunnableCheck) (work : Nat → ProbeWork) : List Ev × CheckResult :=
  runCheck work c.timeout c.policy

/-- The keys of an association-list map are distinct ("at most one entry per
id"). -/
def keysNodup {α : Type} (m : List (Nat × α)) : Prop :=
  (m.map Prod.fst).Nodup

theorem retry_eq_none (r : Retrier) (h : r.policy.maxRetries ≤ r.attempts) :
    r.retry = (none, none, r) := by
  simp [Retrier.retry, h]

theorem retry_eq_some (r : Retrier) (h : r.attempts < r.policy.maxRetries) :
    r.retry = (some (r.attempts + 1), some (waitOf r), r.stepState) := by
  have hn : ¬ r.policy.maxRetries ≤ r.attempts := by omega
  simp only [Retrier.retry, hn, if_false]
  rfl

theorem retry_some_inv (r : Retrier) (a : Nat) (w : Option Dur) (r2 : Retrier)
    (h : r.retry = (some a, w, r2)) :
    r.attempts < r.policy.maxRetries ∧ a = r.attempts + 1 ∧ w = some (waitOf r) ∧
      r2 = r.stepState := by
  rcases Nat.lt_or_ge r.attempts r.policy.maxRetries with hlt | hge
  · rw [retry_eq_some r hlt] at h
    refine ⟨hlt, ?_, ?_, ?_⟩ <;> simp_all
  · rw [retry_eq_none r hge] at h
    simp at h

theorem runCheckLoop_eq (probe : Nat → ProbeOut) (r : Retrier) :
    runCheckLoop probe r =
      match failMsg (probe r.attempts) with
      | none => ([Ev.upd CheckStatus.running none, Ev.upd CheckStatus.succeeded none],
                 CheckResult.success)
      | some m =>
        match r.retry with
        | (none, _, _) =>
          ([Ev.upd CheckStatus.running none, Ev.upd CheckStatus.retrying (some m),
            Ev.upd CheckStatus.failed (some "Maximum retries reached")], CheckResult.failure)
        | (some _, w, r2) =>
          (Ev.upd CheckStatus.running none :: Ev.upd CheckStatus.retrying (some m) ::
            ((match w with | none => [] | some d => [Ev.sleep d]) ++ (runCheckLoop probe r2).1),
           (runCheckLoop probe r2).2) := by
  unfold runCheckLoop
  rcases hfuel : r.policy.maxRetries + 1 - r.attempts with _ | f
  · have hge : r.policy.maxRetries ≤ r.attempts := by omega
    rw [runCheckFuel]
    rcases hp : failMsg (probe r.attempts) with _ | m
    · rfl
    · rw [retry_eq_none r hge]
  · rw [runCheckFuel]
    rcases hp : failMsg (probe r.attempts) with _ | m
    · rfl
    · rcases hr : r.retry with ⟨_ | a, w, r2⟩
      · rfl
      · obtain ⟨hlt, _, _, hr2⟩ := retry_some_inv r a w r2 hr
        have hkey : r2.policy.maxRetries + 1 - r2.attempts = f := by
          subst hr2
          simp only [Retrier.stepState]
          omega
        simp only [hkey]

theorem mget_eq_none_iff {α : Type} (m : List (Nat × α)) (k : Nat) :
    mget m k = none ↔ k ∉ m.map Prod.fst := by
  induction m with
  | nil => simp [mget]
  | cons p rest ih =>
    rcases p with ⟨k2, v⟩
    by_cases hk : k2 = k <;> simp [mget, hk, ih, Ne.symm]

theorem mget_cons_ne {α : Type} (m : List (Nat × α)) (k j : Nat) (v : α) (h : j ≠ k) :
    mget ((j, v) :: m) k = mget m k := by
  simp [mget, h]

theorem keys_mupdate {α : Type} (m : List (Nat × α)) (k : Nat) (f : α → α) :
    (mupdate m k f).map Prod.fst = m.map Prod.fst := by
  induction m with
  | nil => rfl
  | cons p rest ih =>
    rcases p with ⟨k2, v⟩
    by_cases hk : k2 = k <;> simp [mupdate, hk, ih]

theorem mget_mupdate_self {α : Type} (m : List (Nat × α)) (k : Nat) (f : α → α) :
    mget (mupdate m k f) k = (mget m k).map f := by
  induction m with
  | nil => rfl
  | cons p rest ih =>
    rcases p with ⟨k2, v⟩
    by_cases hk : k2 = k
    · simp only [mupdate, if_pos hk]
      simp [mget, hk]
    · simp only [mupdate, if_neg hk]
      simp [mget, hk, ih]

theorem mget_mupdate_ne {α : Type} (m : List (Nat × α)) (k j : Nat) (f : α → α)
    (h : j ≠ k) : mget (mupdate m k f) j = mget m j := by
  induction m with
  | nil => rfl
  | cons p rest ih =>
    rcases p with ⟨k2, v⟩
    by_cases hk : k2 = k
    · have hj : k2 ≠ j := fun hc => h (hc.symm.trans hk)
      simp only [mupdate, if_pos hk]
      simp [mget, hj, ih]
    · simp only [mupdate, if_neg hk]
      by_cases hj : k2 = j <;> simp [mget, hj, ih]

theorem mget_merase_self {α : Type} (m : List (Nat × α)) (k : Nat) :
    mget (merase m k) k = none := by
  induction m with
  | nil => rfl
  | cons p rest ih =>
    rcases p with ⟨k2, v⟩
    by_cases hk : k2 = k
    · simp only [merase, if_pos hk]
      exact ih
    · simp only [merase, if_neg hk]
      simp [mget, hk, ih]

theorem mget_merase_ne {α : Type} (m : List (Nat × α)) (k j : Nat) (h : j ≠ k) :
    mget (merase m k) j = mget m j := by
  induction m with
  | nil => rfl
  | cons p rest ih =>
    rcases p with ⟨k2, v⟩
    by_cases hk : k2 = k
    · have hj : k2 ≠ j := fun hc => h (hc.symm.trans hk)
      simp only [merase, if_pos hk]
      simp [mget, hj, ih]
    · simp only [merase, if_neg hk]
      by_cases hj : k2 = j <;> simp [mget, hj, ih]

theorem keys_merase_sublist {α : Type} (m : List (Nat × α)) (k : Nat) :
    ((merase m k).map Prod.fst).Sublist (m.map Prod.fst) := by
  induction m with
  | nil => simp [merase]
  | cons p rest ih =>
    rcases p with ⟨k2, v⟩
    by_cases hk : k2 = k
    · simpa [merase, hk] using ih.cons k2
    · simpa [merase, hk] using ih.cons₂ k2

theorem keys_merase_nodup {α : Type} (m : List (Nat × α)) (k : Nat)
    (h : keysNodup m) : keysNodup (merase m k) :=
  h.sublist (keys_merase_sublist m k)

/-- Claim C2: `Retrier::retry` returns `none` without waiting once
`attempts >= max_retries`; otherwise it sleeps `initial` on the first retry and
`last_wait * multiplier` on later ones, records the wait, increments the
attempt counter and returns `some(attempts)`.  With policy
{max_retries = 3, initial = 1s, multiplier = 1.1} the successive calls give
`Some(1)` after 1s, `Some(2)` after 1.1s, `Some(3)` after 1.21s, then `None`;
with `max_retries = 0` the first call returns `None` immediately. -/
theorem claim_C2_retrier :
    (∀ r : Retrier, r.policy.maxRetries ≤ r.attempts → r.retry = (none, none, r))
    ∧ (∀ r : Retrier, r.attempts < r.policy.maxRetries →
        r.retry = (some (r.attempts + 1), some (waitOf r), r.stepState)
        ∧ waitOf r = (match r.last with
            | none => r.policy.initial
            | some lastDur => lastDur * r.policy.multiplier)
        ∧ r.stepState.attempts = r.attempts + 1
        ∧ r.stepState.last = some (waitOf r)
        ∧ r.stepState.policy = r.policy)
    ∧ ((Retrier.new ⟨3, 1, 11/10⟩).retry = (some 1, some 1, ⟨⟨3, 1, 11/10⟩, some 1, 1⟩)
        ∧ (⟨⟨3, 1, 11/10⟩, some 1, 1⟩ : Retrier).retry
            = (some 2, some (11/10), ⟨⟨3, 1, 11/10⟩, some (11/10), 2⟩)
        ∧ (⟨⟨3, 1, 11/10⟩, some (11/10), 2⟩ : Retrier).retry
            = (some 3, some (121/100), ⟨⟨3, 1, 11/10⟩, some (121/100), 3⟩)
        ∧ (⟨⟨3, 1, 11/10⟩, some (121/100), 3⟩ : Retrier).retry
            = (none, none, ⟨⟨3, 1, 11/10⟩, some (121/100), 3⟩))
    ∧ (∀ p : Policy, p.maxRetries = 0 → (Retrier.new p).retry = (none, none, Retrier.new p)) := by
  refine ⟨fun r h => retry_eq_none r h, fun r h => ⟨retry_eq_some r h, rfl, rfl, rfl, rfl⟩, ?_, ?_⟩
  · refine ⟨?_, ?_, ?_, ?_⟩ <;> norm_num [Retrier.new, Retrier.retry]
  · intro p hp
    exact retry_eq_none (Retrier.new p) (by simp [Retrier.new, hp])

/-- Witness for C2 at concrete inputs: an exhausted retrier returns `none`
unchanged, and a fresh retrier under {max_retries = 2, initial = 1s,
multiplier = 2} retries with a 1s wait. -/
theorem claim_C2_retrier_witness :
    (⟨⟨2, 1, 2⟩, none, 2⟩ : Retrier).retry = (none, none, ⟨⟨2, 1, 2⟩, none, 2⟩)
    ∧ (⟨⟨2, 1, 2⟩, none, 0⟩ : Retrier).retry = (some 1, some 1, ⟨⟨2, 1, 2⟩, some 1, 1⟩) := by
  constructor
  · exact claim_C2_retrier.1 ⟨⟨2, 1, 2⟩, none, 2⟩ (by norm_num)
  · have h := (claim_C2_retrier.2.1 ⟨⟨2, 1, 2⟩, none, 0⟩ (by norm_num)).1
    rw [h]
    norm_num [waitOf, Retrier.stepState]

/-- Claim C1: the dispatcher state keeps at most one active alert per check id
(distinct keys are preserved by `process_update`), and a `Failed` update whose
id already has an active alert changes nothing and sends nothing; from an
empty state, two successive `Failed` updates for id 5 issue exactly one POST
and leave exactly one entry, for id 5. -/
theorem claim_C1_alert_dedup :
    (∀ cfg registry tok now st (u : CheckUpdate), keysNodup st →
        keysNodup (processUpdate cfg registry tok now st u).state)
    ∧ (∀ cfg registry tok now st (u : CheckUpdate),
        u.status = CheckStatus.failed → mcontains st u.id = true →
        processUpdate cfg registry tok now st u = { state := st, posts := [], logs := [] })
    ∧ ((processUpdate ⟨"http://alert", 30, false⟩ [(5, ⟨"check5", [("l", "v")], []⟩)] true 10 []
          ⟨5, CheckStatus.failed, some "boom"⟩).posts.length = 1
        ∧ processUpdate ⟨"http://alert", 30, false⟩ [(5, ⟨"check5", [("l", "v")], []⟩)] true 11
            (processUpdate ⟨"http://alert", 30, false⟩ [(5, ⟨"check5", [("l", "v")], []⟩)] true 10 []
              ⟨5, CheckStatus.failed, some "boom"⟩).state
            ⟨5, CheckStatus.failed, some "boom"⟩
          = { state := (processUpdate ⟨"http://alert", 30, false⟩ [(5, ⟨"check5", [("l", "v")], []⟩)]
                true 10 [] ⟨5, CheckStatus.failed, some "boom"⟩).state,
              posts := [], logs := [] }
        ∧ (processUpdate ⟨"http://alert", 30, false⟩ [(5, ⟨"check5", [("l", "v")], []⟩)] true 10 []
            ⟨5, CheckStatus.failed, some "boom"⟩).state.map Prod.fst = [5]) := by
  refine ⟨?_, ?_, ?_⟩
  · rintro cfg registry tok now st ⟨uid, ust, umsg⟩ hnd
    cases ust with
    | failed =>
      by_cases hc : mcontains st uid
      · simpa [processUpdate, hc] using hnd
      · rcases hreg : mget registry uid with _ | info
        · simpa [processUpdate, hc, hreg] using hnd
        · have habs : uid ∉ st.map Prod.fst := by
            rw [← mget_eq_none_iff]
            rcases hm : mget st uid with _ | a
            · rfl
            · exact absurd (by simp [mcontains, hm]) hc
          simp only [processUpdate, hc, hreg, Bool.false_eq_true, if_false]
          exact List.Nodup.cons habs hnd
    | succeeded =>
      rcases hget : mget st uid with _ | a
      · simpa [processUpdate, hget] using hnd
      · simp only [processUpdate, hget]
        refine keys_merase_nodup _ _ ?_
        unfold keysNodup
        rw [keys_mupdate]
        exact hnd
    | running => simpa [processUpdate] using hnd
    | retrying => simpa [processUpdate] using hnd
    | waiting d reason => simpa [processUpdate] using hnd
  · rintro cfg registry tok now st ⟨uid, ust, umsg⟩ hst hc
    simp only at hst
    subst hst
    simp [processUpdate, hc]
  · refine ⟨?_, ?_, ?_⟩ <;>
      simp [processUpdate, mcontains, mget, sendAlerts, sinsert]

/-- Witness for C1 at a concrete input: the key-uniqueness invariant and the
duplicate-`Failed` no-op, instantiated at a one-entry state. -/
theorem claim_C1_alert_dedup_witness :
    keysNodup ((processUpdate ⟨"http://alert", 30, false⟩ [(5, ⟨"check5", [("l", "v")], []⟩)] true 10
        [(5, ⟨some 9, none, [], [], none⟩)] ⟨5, CheckStatus.failed, none⟩).state)
    ∧ processUpdate ⟨"http://alert", 30, false⟩ [(5, ⟨"check5", [("l", "v")], []⟩)] true 10
        [(5, ⟨some 9, none, [], [], none⟩)] ⟨5, CheckStatus.failed, none⟩
      = { state := [(5, ⟨some 9, none, [], [], none⟩)], posts := [], logs := [] } := by
  constructor
  · exact claim_C1_alert_dedup.1 ⟨"http://alert", 30, false⟩ [(5, ⟨"check5", [("l", "v")], []⟩)]
      true 10 [(5, ⟨some 9, none, [], [], none⟩)] ⟨5, CheckStatus.failed, none⟩
      (by simp [keysNodup])
  · exact claim_C1_alert_dedup.2.1 ⟨"http://alert", 30, false⟩ [(5, ⟨"check5", [("l", "v")], []⟩)]
      true 10 [(5, ⟨some 9, none, [], [], none⟩)] ⟨5, CheckStatus.failed, none⟩ rfl
      (by simp [mcontains, mget])

/-- Claim C5: a `Succeeded` update for an id with an active alert sets that
alert's `endsAt` to now, POSTs the full current set still containing the ended
alert (all other entries unchanged), and then removes the id; a `Succeeded`
update for an id with no active alert changes nothing and sends nothing. -/
theorem claim_C5_succeeded :
    (∀ cfg registry tok now st (u : CheckUpdate) (a : PostableAlert),
        u.status = CheckStatus.succeeded → mget st u.id = some a →
        processUpdate cfg registry tok now st u =
          { state := merase (mupdate st u.id fun b => { b with endsAt := some now }) u.id,
            posts := [mupdate st u.id fun b => { b with endsAt := some now }],
            logs := LogEntry.checkPassing a.labels :: (if tok then [] else [LogEntry.sendFailure]) }
        ∧ mget (mupdate st u.id fun b => { b with endsAt := some now }) u.id
            = some { a with endsAt := some now }
        ∧ (∀ j, j ≠ u.id →
            mget (mupdate st u.id fun b => { b with endsAt := some now }) j = mget st j)
        ∧ mget (processUpdate cfg registry tok now st u).state u.id = none)
    ∧ (∀ cfg registry tok now st (u : CheckUpdate),
        u.status = CheckStatus.succeeded → mget st u.id = none →
        processUpdate cfg registry tok now st u = { state := st, posts := [], logs := [] }) := by
  constructor
  · rintro cfg registry tok now st ⟨uid, ust, umsg⟩ a hst hget
    simp only at hst
    subst hst
    refine ⟨?_, ?_, ?_, ?_⟩
    · simp [processUpdate, hget, sendAlerts]
    · rw [mget_mupdate_self, hget]
      rfl
    · intro j hj
      exact mget_mupdate_ne st uid j _ hj
    · simp only [processUpdate, hget]
      exact mget_merase_self _ uid
  · rintro cfg registry tok now st ⟨uid, ust, umsg⟩ hst hget
    simp only at hst
    subst hst
    simp [processUpdate, hget]

/-- Witness for C5 at a concrete input: resolving the single active alert for
id 5 POSTs it with `endsAt` set and empties the state; a `Succeeded` update for
the absent id 6 is a no-op. -/
theorem claim_C5_succeeded_witness :
    processUpdate ⟨"http://alert", 30, false⟩ [] true 42 [(5, ⟨some 9, none, [("l", "v")], [], none⟩)]
        ⟨5, CheckStatus.succeeded, none⟩
      = { state := [], posts := [[(5, ⟨some 9, some 42, [("l", "v")], [], none⟩)]],
          logs := [LogEntry.checkPassing [("l", "v")]] }
    ∧ processUpdate ⟨"http://alert", 30, false⟩ [] true 42 [(5, ⟨some 9, none, [("l", "v")], [], none⟩)]
        ⟨6, CheckStatus.succeeded, none⟩
      = { state := [(5, ⟨some 9, none, [("l", "v")], [], none⟩)], posts := [], logs := [] } := by
  constructor
  · have h := (claim_C5_succeeded.1 ⟨"http://alert", 30, false⟩ [] true 42
      [(5, ⟨some 9, none, [("l", "v")], [], none⟩)] ⟨5, CheckStatus.succeeded, none⟩
      ⟨some 9, none, [("l", "v")], [], none⟩ rfl (by simp [mget])).1
    rw [h]
    simp [merase, mupdate, mget]
  · exact claim_C5_succeeded.2 ⟨"http://alert", 30, false⟩ [] true 42
      [(5, ⟨some 9, none, [("l", "v")], [], none⟩)] ⟨6, CheckStatus.succeeded, none⟩ rfl
      (by simp [mget])

/-- Claim C8: on a re-announcement timer tick, an empty alert state issues no
POST, and a non-empty one issues exactly one POST of the full, unchanged
current set. -/
theorem claim_C8_tick :
    ∀ cfg registry tok st,
      (st = [] → runStep cfg registry tok st AMEvent.tick
          = ({ state := st, posts := [], logs := [] }, false))
      ∧ (st ≠ [] → runStep cfg registry tok st AMEvent.tick
          = ({ state := st, posts := [st],
               logs := if tok then [] else [LogEntry.sendFailure] }, false)) := by
  intro cfg registry tok st
  constructor
  · intro h
    subst h
    rfl
  · intro h
    have hne : st.isEmpty = false := by
      cases st with
      | nil => exact absurd rfl h
      | cons a l => rfl
    simp [runStep, hne, sendAlerts]

/-- Witness for C8 at concrete inputs: a tick on the empty state does nothing;
a tick on a one-alert state re-POSTs exactly that set and keeps the state. -/
theorem claim_C8_tick_witness :
    runStep ⟨"http://alert", 30, false⟩ [] true [] AMEvent.tick
      = ({ state := [], posts := [], logs := [] }, false)
    ∧ runStep ⟨"http://alert", 30, false⟩ [] true [(5, ⟨some 9, none, [], [], none⟩)] AMEvent.tick
      = ({ state := [(5, ⟨some 9, none, [], [], none⟩)],
           posts := [[(5, ⟨some 9, none, [], [], none⟩)]], logs := [] }, false) := by
  constructor
  · exact (claim_C8_tick ⟨"http://alert", 30, false⟩ [] true []).1 rfl
  · have h := (claim_C8_tick ⟨"http://alert", 30, false⟩ [] true
      [(5, ⟨some 9, none, [], [], none⟩)]).2 (by simp)
    simpa using h

/-- Claim C7: in report mode the run result is an error exactly when some
check's terminal outcome was `Failure`, and the error text reports the count of
such checks. -/
theorem claim_C7_exit :
    ∀ results : List CheckResult,
      ((runReport results).isOk = false ↔ 0 < failureCount results)
      ∧ (0 < failureCount results →
          runReport results = Except.error (toString (failureCount results) ++ " check(s) failed")) := by
  intro results
  by_cases h : 0 < failureCount results
  · simp [runReport, h, Except.isOk, Except.toBool]
  · simp [runReport, h, Except.isOk, Except.toBool]

/-- Witness for C7 at a concrete input: one failure among two checks yields the
error "1 check(s) failed"; no failures yield success. -/
theorem claim_C7_exit_witness :
    runReport [CheckResult.failure, CheckResult.success] = Except.error "1 check(s) failed"
    ∧ (runReport [CheckResult.success]).isOk = true := by
  constructor
  · have h := (claim_C7_exit [CheckResult.failure, CheckResult.success]).2
      (by simp [failureCount, CheckResult.isFailure])
    simpa [failureCount, CheckResult.isFailure] using h
  · have h := (claim_C7_exit [CheckResult.success]).1
    have : ¬ 0 < failureCount [CheckResult.success] := by
      simp [failureCount, CheckResult.isFailure]
    simp only [← h] at this
    simpa using this

/-- An id absent from the dispatcher state stays absent, and appears in no
POSTed snapshot, across any single `run`-loop step whose event is not a
`Failed` update for that id. -/
theorem runStep_absent (cfg : AlertConfig) (registry : List (Nat × CheckInfo)) (tok : Bool)
    (st : List (Nat × PostableAlert)) (e : AMEvent) (id : Nat)
    (hid : mget st id = none)
    (he : ∀ now2 (u2 : CheckUpdate), e = AMEvent.update now2 u2 →
      ¬(u2.status = CheckStatus.failed ∧ u2.id = id)) :
    mget (runStep cfg registry tok st e).1.state id = none
    ∧ ∀ snap ∈ (runStep cfg registry tok st e).1.posts, mget snap id = none := by
  cases e with
  | tick =>
    by_cases hemp : st.isEmpty
    · constructor
      · simpa [runStep, hemp] using hid
      · intro snap hsnap
        simp [runStep, hemp] at hsnap
    · constructor
      · simpa [runStep, hemp] using hid
      · intro snap hsnap
        simp [runStep, hemp, sendAlerts] at hsnap
        simpa [hsnap] using hid
  | closed =>
    constructor
    · simpa [runStep, sendAlerts] using hid
    · intro snap hsnap
      simp [runStep, sendAlerts] at hsnap
      simpa [hsnap] using hid
  | update now u =>
    rcases u with ⟨uid, ust, umsg⟩
    cases ust with
    | failed =>
      have huid : uid ≠ id := by
        intro hc
        exact he now ⟨uid, CheckStatus.failed, umsg⟩ rfl ⟨rfl, hc⟩
      by_cases hc : mcontains st uid
      · constructor
        · simpa [runStep, processUpdate, hc] using hid
        · intro snap hsnap
          simp [runStep, processUpdate, hc] at hsnap
      · rcases hreg : mget registry uid with _ | info
        · constructor
          · simpa [runStep, processUpdate, hc, hreg] using hid
          · intro snap hsnap
            simp [runStep, processUpdate, hc, hreg] at hsnap
        · constructor
          · simp only [runStep, processUpdate, hc, hreg, Bool.false_eq_true, if_false]
            rw [mget_cons_ne st id uid _ huid]
            exact hid
          · intro snap hsnap
            simp [runStep, processUpdate, hc, hreg, sendAlerts] at hsnap
            rw [hsnap, mget_cons_ne st id uid _ huid]
            exact hid
    | succeeded =>
      rcases hget : mget st uid with _ | a
      · constructor
        · simpa [runStep, processUpdate, hget] using hid
        · intro snap hsnap
          simp [runStep, processUpdate, hget] at hsnap
      · have huid : uid ≠ id := by
          intro hc
          rw [hc, hid] at hget
          cases hget
        constructor
        · simp only [runStep, processUpdate, hget]
          rw [mget_merase_ne _ uid id (Ne.symm huid), mget_mupdate_ne _ uid id _ (Ne.symm huid)]
          exact hid
        · intro snap hsnap
          simp [runStep, processUpdate, hget, sendAlerts] at hsnap
          rw [hsnap, mget_mupdate_ne _ uid id _ (Ne.symm huid)]
          exact hid
    | running =>
      constructor
      · simpa [runStep, processUpdate] using hid
      · intro snap hsnap
        simp [runStep, processUpdate] at hsnap
    | retrying =>
      constructor
      · simpa [runStep, processUpdate] using hid
      · intro snap hsnap
        simp [runStep, processUpdate] at hsnap
    | waiting d reason =>
      constructor
      · simpa [runStep, processUpdate] using hid
      · intro snap hsnap
        simp [runStep, processUpdate] at hsnap

/-- An id absent from the dispatcher state stays absent, and appears in no
POSTed snapshot, across any run of the `run` loop whose events contain no
`Failed` update for that id. -/
theorem runFold_absent (cfg : AlertConfig) (registry : List (Nat × CheckInfo)) :
    ∀ (evs : List (Bool × AMEvent)) (st : List (Nat × PostableAlert)) (id : Nat),
      mget st id = none →
      (∀ p ∈ evs, ∀ now2 (u2 : CheckUpdate), p.2 = AMEvent.update now2 u2 →
        ¬(u2.status = CheckStatus.failed ∧ u2.id = id)) →
      mget (runFold cfg registry st evs).2 id = none
      ∧ ∀ snap ∈ (runFold cfg registry st evs).1, mget snap id = none := by
  intro evs
  induction evs with
  | nil =>
    intro st id hid _
    exact ⟨hid, by intro snap hsnap; simp [runFold] at hsnap⟩
  | cons p rest ih =>
    intro st id hid hev
    rcases p with ⟨tok, e⟩
    have hstep := runStep_absent cfg registry tok st e id hid
      (fun now2 u2 hu => hev (tok, e) (List.mem_cons_self _ _) now2 u2 hu)
    have hrest := ih (runStep cfg registry tok st e).1.state id hstep.1
      (fun q hq => hev q (List.mem_cons_of_mem _ hq))
    by_cases hdone : (runStep cfg registry tok st e).2
    · constructor
      · simpa [runFold, hdone] using hstep.1
      · intro snap hsnap
        simp only [runFold, hdone, if_true] at hsnap
        exact hstep.2 snap hsnap
    · constructor
      · simpa [runFold, hdone] using hrest.1
      · intro snap hsnap
        simp only [runFold, hdone, if_false, List.mem_append, Bool.false_eq_true] at hsnap
        rcases hsnap with hsnap | hsnap
        · exact hstep.2 snap hsnap
        · exact hrest.2 snap hsnap

/-- Claim C10: after a `Succeeded` update resolves an active alert, the id is
removed from the state regardless of whether the resolution POST succeeded
(the post-state, the posts and everything but the transport-failure log line
are independent of the transport outcome, and exactly one send is attempted);
afterwards, as long as no new `Failed` update arrives for that id, no later
step of the `run` loop has the id in its state or in any POSTed snapshot — the
ended alert is never re-sent. -/
theorem claim_C10_resolution :
    ∀ cfg registry now st (u : CheckUpdate) (a : PostableAlert),
      u.status = CheckStatus.succeeded → mget st u.id = some a →
      (processUpdate cfg registry true now st u).state
          = (processUpdate cfg registry false now st u).state
      ∧ (processUpdate cfg registry true now st u).posts
          = (processUpdate cfg registry false now st u).posts
      ∧ (processUpdate cfg registry false now st u).logs
          = (processUpdate cfg registry true now st u).logs ++ [LogEntry.sendFailure]
      ∧ mget (processUpdate cfg registry true now st u).state u.id = none
      ∧ (processUpdate cfg registry true now st u).posts.length = 1
      ∧ (∀ (evs : List (Bool × AMEvent)) (tok2 : Bool),
          (∀ p ∈ evs, ∀ now2 (u2 : CheckUpdate), p.2 = AMEvent.update now2 u2 →
            ¬(u2.status = CheckStatus.failed ∧ u2.id = u.id)) →
          mget (runFold cfg registry (processUpdate cfg registry tok2 now st u).state evs).2 u.id = none
          ∧ ∀ snap ∈ (runFold cfg registry (processUpdate cfg registry tok2 now st u).state evs).1,
              mget snap u.id = none) := by
    rintro cfg registry now st ⟨uid, ust, umsg⟩ a hst hget
    simp only at hst
    subst hst
    have hstate : ∀ tok, (processUpdate cfg registry tok now st ⟨uid, CheckStatus.succeeded, umsg⟩).state
        = merase (mupdate st uid fun b => { b with endsAt := some now }) uid := by
      intro tok
      simp [processUpdate, hget]
    have habsent : mget (processUpdate cfg registry true now st
        ⟨uid, CheckStatus.succeeded, umsg⟩).state uid = none := by
      rw [hstate]
      exact mget_merase_self _ uid
    refine ⟨by rw [hstate, hstate], ?_, ?_, habsent, ?_, ?_⟩
    · simp [processUpdate, hget, sendAlerts]
    · simp [processUpdate, hget, sendAlerts]
    · simp [processUpdate, hget, sendAlerts]
    · intro evs tok2 hev
      have habs2 : mget (processUpdate cfg registry tok2 now st
          ⟨uid, CheckStatus.succeeded, umsg⟩).state uid = none := by
        rw [hstate]
        exact mget_merase_self _ uid
      exact runFold_absent cfg registry evs _ uid habs2 hev

/-- Witness for C10 at a concrete input: resolving the single alert for id 5
with a failing transport still empties the state, attempts exactly one POST,
and a following tick POSTs nothing containing id 5. -/
theorem claim_C10_resolution_witness :
    (processUpdate ⟨"http://alert", 30, false⟩ [] true 42
        [(5, ⟨some 9, none, [], [], none⟩)] ⟨5, CheckStatus.succeeded, none⟩).state
      = (processUpdate ⟨"http://alert", 30, false⟩ [] false 42
        [(5, ⟨some 9, none, [], [], none⟩)] ⟨5, CheckStatus.succeeded, none⟩).state
    ∧ mget (processUpdate ⟨"http://alert", 30, false⟩ [] true 42
        [(5, ⟨some 9, none, [], [], none⟩)] ⟨5, CheckStatus.succeeded, none⟩).state 5 = none
    ∧ ∀ snap ∈ (runFold ⟨"http://alert", 30, false⟩ []
        (processUpdate ⟨"http://alert", 30, false⟩ [] false 42
          [(5, ⟨some 9, none, [], [], none⟩)] ⟨5, CheckStatus.succeeded, none⟩).state
        [(true, AMEvent.tick)]).1, mget snap 5 = none := by
  have h := claim_C10_resolution ⟨"http://alert", 30, false⟩ [] 42
    [(5, ⟨some 9, none, [], [], none⟩)] ⟨5, CheckStatus.succeeded, none⟩
    ⟨some 9, none, [], [], none⟩ rfl (by simp [mget])
  refine ⟨h.1, h.2.2.2.1, ?_⟩
  exact (h.2.2.2.2.2 [(true, AMEvent.tick)] false (by
    rintro p hp now2 u2 hu
    simp at hp
    rw [hp] at hu
    cases hu)).2

/-- Claim C9 counterexample: a `Succeeded` update whose id 7 is in no registry
is silently dropped by `process_update` — no log line is written for it, so
the dispatcher does not "log the defect" for every unknown-id update. -/
theorem claim_C9_cex :
    processUpdate ⟨"http://alert", 30, false⟩ [] true 10 [] ⟨7, CheckStatus.succeeded, none⟩
      = { state := [], posts := [], logs := [] }
    ∧ (processUpdate ⟨"http://alert", 30, false⟩ [] true 10 []
        ⟨7, CheckStatus.succeeded, none⟩).logs = [] := by
  constructor <;> simp [processUpdate, mget]

/-- Claim C9 (amended): an update whose id is not in the registry never crashes
the consumer, changes no state, creates no alert and issues no POST; the alert
dispatcher logs the defect exactly when the update is `Failed`, and the
reporter resolves such an id to the name "unknown check". -/
theorem claim_C9_unknown_id :
    (∀ cfg registry tok now st (u : CheckUpdate),
        mget registry u.id = none →
        (∀ k, mcontains st k = true → mcontains registry k = true) →
        (processUpdate cfg registry tok now st u).state = st
        ∧ (processUpdate cfg registry tok now st u).posts = []
        ∧ (processUpdate cfg registry tok now st u).logs
            = (if u.status = CheckStatus.failed then [LogEntry.unknownId u.id] else []))
    ∧ (∀ (registry2 : List (Nat × String)) (id : Nat),
        mget registry2 id = none → resolveName registry2 id = "unknown check") := by
  constructor
  · rintro cfg registry tok now st ⟨uid, ust, umsg⟩ hreg hinv
    have hst : mget st uid = none := by
      rcases hm : mget st uid with _ | a
      · rfl
      · have := hinv uid (by simp [mcontains, hm])
        rw [mcontains, hreg] at this
        cases this
    cases ust with
    | failed =>
      have hc : mcontains st uid = false := by simp [mcontains, hst]
      refine ⟨?_, ?_, ?_⟩ <;> simp [processUpdate, hc, hreg]
    | succeeded => refine ⟨?_, ?_, ?_⟩ <;> simp [processUpdate, hst]
    | running => refine ⟨?_, ?_, ?_⟩ <;> simp [processUpdate]
    | retrying => refine ⟨?_, ?_, ?_⟩ <;> simp [processUpdate]
    | waiting d reason => refine ⟨?_, ?_, ?_⟩ <;> simp [processUpdate]
  · intro registry2 id h
    simp [resolveName, h]

/-- Witness for C9 (amended) at concrete inputs: a `Failed` update for the
unregistered id 7 only logs the defect, and the reporter names id 7 "unknown
check". -/
theorem claim_C9_unknown_id_witness :
    (processUpdate ⟨"http://alert", 30, false⟩ [(5, ⟨"check5", [], []⟩)] true 10 []
        ⟨7, CheckStatus.failed, some "boom"⟩).state = []
    ∧ (processUpdate ⟨"http://alert", 30, false⟩ [(5, ⟨"check5", [], []⟩)] true 10 []
        ⟨7, CheckStatus.failed, some "boom"⟩).posts = []
    ∧ (processUpdate ⟨"http://alert", 30, false⟩ [(5, ⟨"check5", [], []⟩)] true 10 []
        ⟨7, CheckStatus.failed, some "boom"⟩).logs = [LogEntry.unknownId 7]
    ∧ resolveName [(5, "check5")] 7 = "unknown check" := by
  have h := claim_C9_unknown_id.1 ⟨"http://alert", 30, false⟩ [(5, ⟨"check5", [], []⟩)] true 10 []
    ⟨7, CheckStatus.failed, some "boom"⟩ (by simp [mget]) (by intro k hk; simp [mcontains, mget] at hk)
  refine ⟨h.1, h.2.1, by simpa using h.2.2, ?_⟩
  exact claim_C9_unknown_id.2 [(5, "check5")] 7 (by simp [mget])

theorem runCheckLoop_probe_ok (probe : Nat → ProbeOut) (r : Retrier)
    (hp : probe r.attempts = ProbeOut.ok) :
    runCheckLoop probe r
      = ([Ev.upd CheckStatus.running none, Ev.upd CheckStatus.succeeded none],
         CheckResult.success) := by
  rw [runCheckLoop_eq, hp]
  rfl

theorem runCheckLoop_exhausted (probe : Nat → ProbeOut) (r : Retrier) (m : String)
    (hp : probe r.attempts = ProbeOut.fail m) (hge : r.policy.maxRetries ≤ r.attempts) :
    runCheckLoop probe r
      = ([Ev.upd CheckStatus.running none, Ev.upd CheckStatus.retrying (some m),
          Ev.upd CheckStatus.failed (some "Maximum retries reached")], CheckResult.failure) := by
  rw [runCheckLoop_eq, hp]
  simp [failMsg, retry_eq_none r hge]

theorem runCheckLoop_retry (probe : Nat → ProbeOut) (r : Retrier) (m : String)
    (hp : probe r.attempts = ProbeOut.fail m) (hlt : r.attempts < r.policy.maxRetries) :
    runCheckLoop probe r
      = (Ev.upd CheckStatus.running none :: Ev.upd CheckStatus.retrying (some m) ::
          Ev.sleep (waitOf r) :: (runCheckLoop probe r.stepState).1,
         (runCheckLoop probe r.stepState).2) := by
  rw [runCheckLoop_eq, hp]
  simp [failMsg, retry_eq_some r hlt]

theorem runCheckLoop_failure_iff (probe : Nat → ProbeOut) :
    ∀ (gap : Nat) (r : Retrier), r.policy.maxRetries - r.attempts = gap →
      r.attempts ≤ r.policy.maxRetries →
      ((runCheckLoop probe r).2 = CheckResult.failure
        ↔ ∀ k, r.attempts ≤ k → k ≤ r.policy.maxRetries → probe k ≠ ProbeOut.ok) := by
  intro gap
  induction gap with
  | zero =>
    intro r hgap hle
    rcases hp : probe r.attempts with _ | m
    · rw [runCheckLoop_probe_ok probe r hp]
      constructor
      · intro h
        cases h
      · intro h
        exact absurd hp (h r.attempts le_rfl hle)
    · rw [runCheckLoop_exhausted probe r m hp (by omega)]
      constructor
      · intro _ k hk1 hk2
        have hk : k = r.attempts := by omega
        rw [hk, hp]
        intro hc
        cases hc
      · intro _
        rfl
  | succ n ih =>
    intro r hgap hle
    have hlt : r.attempts < r.policy.maxRetries := by omega
    rcases hp : probe r.attempts with _ | m
    · rw [runCheckLoop_probe_ok probe r hp]
      constructor
      · intro h
        cases h
      · intro h
        exact absurd hp (h r.attempts le_rfl hle)
    · have hsnd : (runCheckLoop probe r).2 = (runCheckLoop probe r.stepState).2 := by
        rw [runCheckLoop_retry probe r m hp hlt]
      have hih := ih r.stepState (by simp only [Retrier.stepState]; omega)
        (by simp only [Retrier.stepState]; omega)
      rw [hsnd, hih]
      simp only [Retrier.stepState]
      constructor
      · intro h k hk1 hk2
        by_cases hk : k = r.attempts
        · rw [hk, hp]
          intro hc
          cases hc
        · exact h k (by omega) hk2
      · intro h k hk1 hk2
        exact h k (by omega) hk2

/-- Claim C4: one report-mode cycle emits `Running`, probes under the timeout
deadline, emits `Succeeded` and finishes with outcome `Success` on success; on
failure it emits `Retrying` with the failure description and consults the
retrier — exhausted means `Failed("Maximum retries reached")` and outcome
`Failure`, otherwise it sleeps the backoff wait and loops.  Consequently the
cycle ends in `Failure` exactly when the first `max_retries + 1` probe
attempts all fail. -/
theorem claim_C4_report_cycle :
    ∀ (work : Nat → ProbeWork) (t : Dur) (p : Policy),
      runCheck work t p = runCheckLoop (probeOf work t) (Retrier.new p)
      ∧ (∀ r : Retrier,
          (probeOf work t r.attempts = ProbeOut.ok →
            runCheckLoop (probeOf work t) r
              = ([Ev.upd CheckStatus.running none, Ev.upd CheckStatus.succeeded none],
                 CheckResult.success))
          ∧ (∀ m, probeOf work t r.attempts = ProbeOut.fail m →
              r.policy.maxRetries ≤ r.attempts →
              runCheckLoop (probeOf work t) r
                = ([Ev.upd CheckStatus.running none, Ev.upd CheckStatus.retrying (some m),
                    Ev.upd CheckStatus.failed (some "Maximum retries reached")],
                   CheckResult.failure))
          ∧ (∀ m, probeOf work t r.attempts = ProbeOut.fail m →
              r.attempts < r.policy.maxRetries →
              runCheckLoop (probeOf work t) r
                = (Ev.upd CheckStatus.running none :: Ev.upd CheckStatus.retrying (some m) ::
                    Ev.sleep (waitOf r) :: (runCheckLoop (probeOf work t) r.stepState).1,
                   (runCheckLoop (probeOf work t) r.stepState).2)))
      ∧ ((runCheck work t p).2 = CheckResult.failure
          ↔ ∀ k, k ≤ p.maxRetries → probeOf work t k ≠ ProbeOut.ok) := by
  intro work t p
  refine ⟨rfl, ?_, ?_⟩
  · intro r
    exact ⟨runCheckLoop_probe_ok (probeOf work t) r,
      fun m hp hge => runCheckLoop_exhausted (probeOf work t) r m hp hge,
      fun m hp hlt => runCheckLoop_retry (probeOf work t) r m hp hlt⟩
  · have h := runCheckLoop_failure_iff (probeOf work t) p.maxRetries (Retrier.new p)
      (by simp [Retrier.new]) (by simp [Retrier.new])
    rw [show runCheck work t p = runCheckLoop (probeOf work t) (Retrier.new p) from rfl, h]
    constructor
    · intro hall k hk
      exact hall k (Nat.zero_le k) hk
    · intro hall k _ hk
      exact hall k hk

/-- Witness for C4 at a concrete input: with `max_retries = 0` a single failing
probe yields the `Running`, `Retrying`, `Failed("Maximum retries reached")`
trace and outcome `Failure`. -/
theorem claim_C4_report_cycle_witness :
    runCheckLoop (probeOf (fun _ => ⟨0, ProbeOut.fail "boom"⟩) 10) (Retrier.new ⟨0, 1, 2⟩)
      = ([Ev.upd CheckStatus.running none, Ev.upd CheckStatus.retrying (some "boom"),
          Ev.upd CheckStatus.failed (some "Maximum retries reached")], CheckResult.failure)
    ∧ (runCheck (fun _ => ⟨0, ProbeOut.fail "boom"⟩) 10 ⟨0, 1, 2⟩).2 = CheckResult.failure := by
  have h := claim_C4_report_cycle (fun _ => ⟨0, ProbeOut.fail "boom"⟩) 10 ⟨0, 1, 2⟩
  constructor
  · exact (h.2.1 (Retrier.new ⟨0, 1, 2⟩)).2.1 "boom"
      (by norm_num [probeOf, tokioTimeout, Retrier.new]) (by norm_num [Retrier.new])
  · refine h.2.2.mpr ?_
    intro k _
    have hk : probeOf (fun _ => ⟨0, ProbeOut.fail "boom"⟩) 10 k = ProbeOut.fail "boom" := by
      norm_num [probeOf, tokioTimeout]
    rw [hk]
    intro hc
    cases hc

/-- Claim C6: the deadline a materialized check runs every probe invocation
under is exactly the `check_timeout` of its check definition, and expiry of
that deadline is a probe failure ("Check timed out") that feeds the same
retry path as an explicit probe error: replacing the too-slow attempt by an
immediate explicit failure with the same message changes nothing about the
cycle. -/
theorem claim_C6_timeout :
    ∀ (d : CheckDefinition) (work : Nat → ProbeWork),
      runnableRunCheck (mkRunnable d) work = runCheck work d.checkTimeout d.retryPolicy
      ∧ (mkRunnable d).timeout = d.checkTimeout
      ∧ (∀ k, d.checkTimeout < (work k).elapsed →
          probeOf work d.checkTimeout k = ProbeOut.fail "Check timed out")
      ∧ (∀ k, d.checkTimeout < (work k).elapsed →
          runCheck work d.checkTimeout d.retryPolicy
            = runCheck (fun j => if j = k then ⟨0, ProbeOut.fail "Check timed out"⟩ else work j)
                d.checkTimeout d.retryPolicy) := by
  intro d work
  refine ⟨rfl, rfl, ?_, ?_⟩
  · intro k h
    simp [probeOf, tokioTimeout, h]
  · intro k h
    have hfn : probeOf work d.checkTimeout
        = probeOf (fun j => if j = k then ⟨0, ProbeOut.fail "Check timed out"⟩ else work j)
            d.checkTimeout := by
      funext j
      by_cases hj : j = k
      · subst hj
        simp [probeOf, tokioTimeout, h, ite_self]
      · simp [probeOf, hj]
    unfold runCheck
    rw [hfn]

/-- Witness for C6 at a concrete input: with a 10s `check_timeout` and a probe
needing 20s, the effective probe outcome is the "Check timed out" failure, and
the cycle equals the one with an immediate explicit failure. -/
theorem claim_C6_timeout_witness :
    probeOf (fun _ => ⟨20, ProbeOut.ok⟩) 10 0 = ProbeOut.fail "Check timed out"
    ∧ runCheck (fun _ => ⟨20, ProbeOut.ok⟩) 10 ⟨1, 1, 2⟩
        = runCheck (fun j => if j = 0 then ⟨0, ProbeOut.fail "Check timed out"⟩
            else (fun _ => (⟨20, ProbeOut.ok⟩ : ProbeWork)) j) 10 ⟨1, 1, 2⟩ := by
  have h := claim_C6_timeout ⟨⟨1, 1, 2⟩, 10, [], [], ⟨60, 5⟩⟩ (fun _ => ⟨20, ProbeOut.ok⟩)
  exact ⟨h.2.2.1 0 (by norm_num), h.2.2.2 0 (by norm_num)⟩

/-- Claim C3 counterexample: with policy {max_retries = 3, initial = 1s,
multiplier = 1.1}, recheck_interval = 5s and an always-failing probe, the
alert-mode trace of the first cycle shows that a probe failure is followed by
`Retrying` and the 1s backoff sleep — not by `Waiting(recheck_interval,
"recheck")` — and that the cycle exhausts its retries, emitting
`Failed("Maximum retries reached")`, before the recheck wait happens. -/
theorem claim_C3_cex :
    runCheckForAlerts ⟨60, 5⟩ 10 ⟨3, 1, 11/10⟩ (fun _ _ => ⟨0, ProbeOut.fail "boom"⟩) 1
      = [Ev.upd CheckStatus.running none, Ev.upd CheckStatus.retrying (some "boom"),
         Ev.sleep 1,
         Ev.upd CheckStatus.running none, Ev.upd CheckStatus.retrying (some "boom"),
         Ev.sleep (11/10),
         Ev.upd CheckStatus.running none, Ev.upd CheckStatus.retrying (some "boom"),
         Ev.sleep (121/100),
         Ev.upd CheckStatus.running none, Ev.upd CheckStatus.retrying (some "boom"),
         Ev.upd CheckStatus.failed (some "Maximum retries reached"),
         Ev.upd (CheckStatus.waiting 5 "recheck") none, Ev.sleep 5]
    ∧ Ev.upd CheckStatus.failed (some "Maximum retries reached")
        ∈ runCheckForAlerts ⟨60, 5⟩ 10 ⟨3, 1, 11/10⟩ (fun _ _ => ⟨0, ProbeOut.fail "boom"⟩) 1 := by
  have h : runCheckForAlerts ⟨60, 5⟩ 10 ⟨3, 1, 11/10⟩ (fun _ _ => ⟨0, ProbeOut.fail "boom"⟩) 1
      = [Ev.upd CheckStatus.running none, Ev.upd CheckStatus.retrying (some "boom"),
         Ev.sleep 1,
         Ev.upd CheckStatus.running none, Ev.upd CheckStatus.retrying (some "boom"),
         Ev.sleep (11/10),
         Ev.upd CheckStatus.running none, Ev.upd CheckStatus.retrying (some "boom"),
         Ev.sleep (121/100),
         Ev.upd CheckStatus.running none, Ev.upd CheckStatus.retrying (some "boom"),
         Ev.upd CheckStatus.failed (some "Maximum retries reached"),
         Ev.upd (CheckStatus.waiting 5 "recheck") none, Ev.sleep 5] := by
    norm_num [runCheckForAlerts, alertCycleEvs, runCheck, runCheckLoop, runCheckFuel,
      probeOf, tokioTimeout, failMsg, Retrier.new, Retrier.retry, CheckResult.isFailure,
      List.range_succ]
  refine ⟨h, ?_⟩
  rw [h]
  simp

/-- Claim C3 (amended): in alert mode a check task never reaches a terminal
outcome — after every full report-style check cycle (which internally retries
with backoff and emits `Failed` when the cycle exhausts its retries) the task
continues: a cycle that ended in `Failure` is followed by
`Waiting(recheck_interval, "recheck")` and a recheck_interval sleep before the
cycle is rerun, and a cycle that succeeded is followed by
`Waiting(check_interval, "next check")` and a check_interval sleep before the
outer loop restarts. -/
theorem claim_C3_alert_mode :
    ∀ (pol : AlertPolicy) (t : Dur) (p : Policy) (work : Nat → Nat → ProbeWork) (n : Nat),
      runCheckForAlerts pol t p work (n + 1)
        = runCheckForAlerts pol t p work n ++ alertCycleEvs pol (runCheck (work n) t p)
      ∧ ((runCheck (work n) t p).2 = CheckResult.failure →
          alertCycleEvs pol (runCheck (work n) t p)
            = (runCheck (work n) t p).1
              ++ [Ev.upd (CheckStatus.waiting pol.recheckInterval "recheck") none,
                  Ev.sleep pol.recheckInterval])
      ∧ ((runCheck (work n) t p).2 = CheckResult.success →
          alertCycleEvs pol (runCheck (work n) t p)
            = (runCheck (work n) t p).1
              ++ [Ev.upd (CheckStatus.waiting pol.checkInterval "next check") none,
                  Ev.sleep pol.checkInterval]) := by
  intro pol t p work n
  refine ⟨?_, ?_, ?_⟩
  · simp [runCheckForAlerts, List.range_succ]
  · intro h
    simp [alertCycleEvs, h, CheckResult.isFailure]
  · intro h
    simp [alertCycleEvs, h, CheckResult.isFailure]

/-- Witness for C3 (amended) at a concrete input: one failing cycle under
{max_retries = 0} is followed by the recheck wait, and the trace of two cycles
extends the trace of one. -/
theorem claim_C3_alert_mode_witness :
    runCheckForAlerts ⟨60, 5⟩ 10 ⟨0, 1, 2⟩ (fun _ _ => ⟨0, ProbeOut.fail "boom"⟩) 1
      = runCheckForAlerts ⟨60, 5⟩ 10 ⟨0, 1, 2⟩ (fun _ _ => ⟨0, ProbeOut.fail "boom"⟩) 0
        ++ alertCycleEvs ⟨60, 5⟩ (runCheck (fun _ => ⟨0, ProbeOut.fail "boom"⟩) 10 ⟨0, 1, 2⟩)
    ∧ alertCycleEvs ⟨60, 5⟩ (runCheck (fun _ => ⟨0, ProbeOut.fail "boom"⟩) 10 ⟨0, 1, 2⟩)
      = (runCheck (fun _ => ⟨0, ProbeOut.fail "boom"⟩) 10 ⟨0, 1, 2⟩).1
        ++ [Ev.upd (CheckStatus.waiting 5 "recheck") none, Ev.sleep 5] := by
  have h := claim_C3_alert_mode ⟨60, 5⟩ 10 ⟨0, 1, 2⟩ (fun _ _ => ⟨0, ProbeOut.fail "boom"⟩) 0
  refine ⟨h.1, h.2.1 ?_⟩
  norm_num [runCheck, runCheckLoop, runCheckFuel, probeOf, tokioTimeout, failMsg,
    Retrier.new, Retrier.retry]

end ColmenaHealth
